import Mathlib

/-!
Shallow embedding of the signal-generation and backtesting core of the
Crypto-Technical-Analysis-Bot repository, together with proofs checking the
natural-language specification against it.

Conventions used throughout:
* Python floats are modelled as rationals (`ℚ`); all the arithmetic the
  claims touch is exact in the source (comparisons, ratios of finite values).
* A pandas `DataFrame` of candles is modelled as a `List Row`, ordered by
  time ascending.  Optional indicator columns are modelled as `Option ℚ`
  fields on each row (the spec's data model: derived fields are
  present-or-absent per bar).  An access that would raise in Python
  (`KeyError` on a missing column, `IndexError` on an out-of-range `iloc`)
  is modelled as `Except.error`.
* `dataframe.tail n` is `listTail`, `series.max()` / `.min()` / `.mean()`
  are `listMax` / `listMin` / `listMean` (the code only applies them to
  nonempty series).
-/

namespace CryptoBot

/-- Trade actions, from `bot/models.py` (`TradeAction`). -/
inductive TradeAction where
  | BUY
  | SELL
  | NO_TRADE
deriving DecidableEq, Repr

/-- Risk ratings, from `bot/models.py` (`RiskRating`). -/
inductive RiskRating where
  | LOW
  | MEDIUM
  | HIGH
deriving DecidableEq, Repr

/-- Market regimes, from `bot/models.py` (`MarketRegime`). -/
inductive MarketRegime where
  | TREND_UP
  | TREND_DOWN
  | RANGE
  | CHOPPY
  | BREAKOUT
  | UNKNOWN
deriving DecidableEq, Repr

/-- Trade signal record, from `bot/models.py` (`TradeSignal`).  Numeric
fields are rationals; `take_profits` keeps the `Optional[List[float]]`
shape of the source. -/
structure TradeSignal where
  symbol : String
  timeframe : String
  action : TradeAction
  strategy_name : String
  entry_zone : Option (ℚ × ℚ)
  stop_loss : Option ℚ
  take_profits : Option (List ℚ)
  risk_rating : RiskRating
  confidence_score : ℚ
  regime : MarketRegime
  context : List (String × ℚ)
deriving DecidableEq, Repr

/-- One candle row, as produced by `DataRepository.load_candles` followed by
`add_basic_indicators`.  The OHLCV fields are required; indicator columns
are optional (present-or-absent per bar).  The `open` price is carried for
completeness although no core operation reads it. -/
structure Row where
  open_price : ℚ
  high : ℚ
  low : ℚ
  close : ℚ
  volume : ℚ
  ema20 : Option ℚ := none
  ema50 : Option ℚ := none
  ema200 : Option ℚ := none
  rsi14 : Option ℚ := none
deriving DecidableEq, Repr

/-- Pandas `series.tail(n)`: the last `n` elements (all of them when the
series is shorter). -/
def listTail (l : List α) (n : ℕ) : List α :=
  l.drop (l.length - n)

/-- Maximum of a list of rationals (pandas `series.max()`); the code only
applies it to nonempty series, the `[]` case is an arbitrary total-function
default. -/
def listMax : List ℚ → ℚ
  | [] => 0
  | x :: xs => xs.foldl max x

/-- Minimum of a list of rationals (pandas `series.min()`); same nonempty
usage as `listMax`. -/
def listMin : List ℚ → ℚ
  | [] => 0
  | x :: xs => xs.foldl min x

/-- Mean of a list of rationals (pandas `series.mean()`); the code only
applies it to nonempty series. -/
def listMean (l : List ℚ) : ℚ :=
  l.sum / l.length

/-- Small guard constant `1e-9` used by the source in denominators. -/
def eps9 : ℚ := 1 / 1000000000

/-- Percentage slope of a series over a trailing window, from
`bot/indicators/features.py` (`_ema_slope`): take the last `window` values,
return 0 when fewer than two remain or the start value is 0, otherwise
`(end - start) / start`.  A missing value at either endpoint (a column the
frame does not carry) is a hard failure, as the corresponding pandas column
access would be. -/
def emaSlope (col : List (Option ℚ)) (window : ℕ) : Except Unit ℚ :=
  let t := listTail col window
  if t.length < 2 then .ok 0
  else
    match t.head?, t.getLast? with
    | some (some s), some (some e) =>
        if s = 0 then .ok 0 else .ok ((e - s) / s)
    | _, _ => .error ()

/-- Trailing window of up to 120 bars, from `compute_trend_direction`
(`df.tail(120) if len(df) > 120 else df`). -/
def regimeRecent (df : List Row) : List Row :=
  if df.length > 120 then listTail df 120 else df

/-- Trailing close range as a fraction of the trailing mean close, from
`compute_trend_direction`
(`(recent_closes.max() - recent_closes.min()) / max(recent_closes.mean(), 1e-9)`). -/
def pctRangeOf (closes : List ℚ) : ℚ :=
  (listMax closes - listMin closes) / max (listMean closes) eps9

/-- Distance of the current close from the 50-bar EMA as a fraction of that
EMA, from `compute_trend_direction` (`abs(close - ema50) / max(ema50, 1e-9)`). -/
def closeToEmaOf (close ema50 : ℚ) : ℚ :=
  |close - ema50| / max ema50 eps9

/-- Regime classifier, from `bot/indicators/features.py`
(`compute_trend_direction`), which `bot/engine/regime.py` (`detect_regime`)
returns unchanged.  An empty frame or a missing `ema20`/`ema50` field on the
last bar is a hard failure (the source would raise on `recent.iloc[-1]` /
`float(last["ema20"])`). -/
def computeTrendDirection (df : List Row) : Except Unit MarketRegime :=
  let recent := regimeRecent df
  match recent.getLast? with
  | none => .error ()
  | some last =>
    match last.ema20, last.ema50 with
    | some ema20, some ema50 =>
      let ema200 := last.ema200.getD ema50
      let close := last.close
      match emaSlope (recent.map (·.ema20)) 25, emaSlope (recent.map (·.ema50)) 35 with
      | .ok ema20_slope, .ok ema50_slope =>
        let stacked_up := ema20 > ema50 ∧ ema50 > ema200
        let stacked_down := ema20 < ema50 ∧ ema50 < ema200
        if stacked_up ∧ ema20_slope > 3/2000 ∧ ema50_slope > 1/2000 ∧ close > ema20 then
          .ok .TREND_UP
        else if stacked_down ∧ ema20_slope < -(3/2000) ∧ ema50_slope < -(1/2000) ∧ close < ema20 then
          .ok .TREND_DOWN
        else
          let recent_closes := listTail (recent.map (·.close)) 60
          if recent_closes.length ≥ 20 then
            if |ema20_slope| < 1/1000 ∧ |ema50_slope| < 1/1250 ∧
                pctRangeOf recent_closes < 1/20 ∧ closeToEmaOf close ema50 < 1/50 then
              .ok .RANGE
            else
              .ok .CHOPPY
          else
            .ok .CHOPPY
      | _, _ => .error ()
    | _, _ => .error ()

/-- Negative positional access `series.iloc[-k]` (for `k ≥ 1`) on an
optional indicator column: a hard failure when the series is shorter than
`k` (IndexError) or the value is absent (missing column). -/
def ilocNeg (col : List (Option ℚ)) (k : ℕ) : Except Unit ℚ :=
  if col.length < k then .error ()
  else
    match col.get? (col.length - k) with
    | some (some v) => .ok v
    | _ => .error ()

/-- True-range values for all rows after the first, from the `_atr` helper
in `bot/strategy/trend_continuation.py`:
`max(high - low, |high - prev_close|, |low - prev_close|)`. -/
def trPairs (prev : Row) : List Row → List ℚ
  | [] => []
  | r :: rest =>
      max (r.high - r.low) (max |r.high - prev.close| |r.low - prev.close|) :: trPairs r rest

/-- True-range series of a slice; the first row has no previous close, so
its row-wise maximum (pandas skips the NaN entries) is `high - low`. -/
def trList : List Row → List ℚ
  | [] => []
  | r :: rest => (r.high - r.low) :: trPairs r rest

/-- Average true range over a 14-bar window, from `_atr`:
`tr.rolling(14).mean().iloc[-1]`, which is NaN (modelled `none`) when the
slice holds fewer than 14 rows. -/
def atrOf (data : List Row) : Option ℚ :=
  let tr := trList data
  if tr.length < 14 then none
  else some ((listTail tr 14).sum / 14)

/-- Trend-continuation strategy, from `bot/strategy/trend_continuation.py`
(`TrendContinuationStrategy.generate_signal`).  The regime gate comes
first; the EMA-slope column accesses (`df["ema20"].iloc[-1]`, `.iloc[-8]`,
`df["ema50"].iloc[-1]`, `.iloc[-13]`) are the only hard-failure points. -/
def trendContinuationSignal (df : List Row) (symbol timeframe : String)
    (regime : MarketRegime) : Except Unit (Option TradeSignal) :=
  if regime ≠ .TREND_UP then .ok none
  else
    match df.getLast? with
    | none => .error ()
    | some last =>
      let close := last.close
      let ema20 := last.ema20.getD close
      let ema50 := last.ema50.getD (close * (99/100))
      let ema200 := last.ema200.getD (ema50 * (99/100))
      let rsi := last.rsi14.getD 55
      match ilocNeg (df.map (·.ema20)) 1, ilocNeg (df.map (·.ema20)) 8,
            ilocNeg (df.map (·.ema50)) 1, ilocNeg (df.map (·.ema50)) 13 with
      | .ok e20last, .ok e20prev, .ok e50last, .ok e50prev =>
        let ema20_slope := (e20last - e20prev) / max e20prev eps9
        let ema50_slope := (e50last - e50prev) / max e50prev eps9
        if ema20 > ema50 ∧ ema50 > ema200 ∧ ema20_slope > 1/2000 then
          let pullback_band_low := min ema20 ema50 * (985/1000)
          let pullback_band_high := ema20 * (103/100)
          if (pullback_band_low ≤ close ∧ close ≤ pullback_band_high) ∧
              (50 ≤ rsi ∧ rsi ≤ 68) then
            let atr := atrOf (listTail df 80)
            let atrPos : Bool := match atr with | some a => decide (0 < a) | none => false
            let swing_low := listMin (listTail (df.map (·.low)) 20)
            let sl_buffer := if atrPos then atr.getD 0 * (8/10) else swing_low * (3/1000)
            let sl := min (swing_low - sl_buffer) (close * (97/100))
            let tp1 := close + (if atrPos then atr.getD 0 * (14/10) else close * (2/100))
            let tp2 := close + (if atrPos then atr.getD 0 * (24/10) else close * (4/100))
            let entry_zone := (pullback_band_low, max pullback_band_high (ema50 * (101/100)))
            let confidence := min (9/10) (65/100 + ema20_slope * 8)
            .ok (some
              { symbol := symbol, timeframe := timeframe, action := .BUY,
                strategy_name := "TrendContinuation",
                entry_zone := some entry_zone, stop_loss := some sl,
                take_profits := some [tp1, tp2], risk_rating := .MEDIUM,
                confidence_score := confidence, regime := regime,
                context := [("close", close), ("ema20", ema20), ("ema50", ema50),
                            ("ema200", ema200), ("rsi14", rsi),
                            ("ema20_slope", ema20_slope), ("ema50_slope", ema50_slope),
                            ("atr14", atr.getD 0)] })
          else .ok none
        else .ok none
      | _, _, _, _ => .error ()

/-- Range-reversion strategy, from `bot/strategy/range_reversion.py`
(`RangeReversionStrategy.generate_signal`).  Note the unguarded
`float(last["rsi14"])` access right after the regime gate. -/
def rangeReversionSignal (df : List Row) (symbol timeframe : String)
    (regime : MarketRegime) : Except Unit (Option TradeSignal) :=
  if regime ≠ .RANGE then .ok none
  else
    match df.getLast? with
    | none => .error ()
    | some last =>
      let close := last.close
      match last.rsi14 with
      | none => .error ()
      | some rsi =>
        let recent := listTail df 50
        let range_high := listMax (recent.map (·.high))
        let range_low := listMin (recent.map (·.low))
        let range_height := range_high - range_low
        if range_height ≤ 0 then .ok none
        else
          let compression := range_height / max (listMean (recent.map (·.close))) eps9
          if compression > 2/25 then .ok none
          else
            let support_zone := (range_low * (995/1000), range_low * (101/100))
            let resistance_zone := (range_high * (99/100), range_high * (1005/1000))
            if support_zone.1 ≤ close ∧ close ≤ support_zone.2 ∧ rsi < 38 then
              .ok (some
                { symbol := symbol, timeframe := timeframe, action := .BUY,
                  strategy_name := "RangeReversion",
                  entry_zone := some support_zone,
                  stop_loss := some (range_low * (99/100)),
                  take_profits := some [close * (41/40)], risk_rating := .MEDIUM,
                  confidence_score := 6/10, regime := regime,
                  context := [("close", close), ("rsi14", rsi), ("range_low", range_low),
                              ("range_high", range_high), ("compression", compression)] })
            else if resistance_zone.1 ≤ close ∧ close ≤ resistance_zone.2 ∧ rsi > 62 then
              .ok (some
                { symbol := symbol, timeframe := timeframe, action := .SELL,
                  strategy_name := "RangeReversion",
                  entry_zone := some resistance_zone,
                  stop_loss := some (range_high * (101/100)),
                  take_profits := some [close * (39/40)], risk_rating := .HIGH,
                  confidence_score := 6/10, regime := regime,
                  context := [("close", close), ("rsi14", rsi), ("range_low", range_low),
                              ("range_high", range_high), ("compression", compression)] })
            else .ok none

/-- Type of a strategy's `generate_signal` method as the orchestrator and
the registry see it: candles, symbol, timeframe, regime in; an optional
signal out, or a hard failure (a raised exception). -/
abbrev StratFun := List Row → String → String → MarketRegime → Except Unit (Option TradeSignal)

/-- Static regime-to-strategies mapping, from `bot/strategy/registry.py`
(`_REGISTRY`). -/
def strategyRegistry : MarketRegime → List StratFun
  | .TREND_UP => [trendContinuationSignal]
  | .TREND_DOWN => [trendContinuationSignal]
  | .RANGE => [rangeReversionSignal]
  | .CHOPPY => [rangeReversionSignal]
  | .BREAKOUT => [trendContinuationSignal]
  | .UNKNOWN => [trendContinuationSignal, rangeReversionSignal]

/-- One iteration of the strategy loop in `SignalEngine.generate_signal`:
a raising strategy is skipped (`except Exception: continue`), an abstaining
strategy is skipped, and a proposal replaces the running best exactly when
its confidence is strictly higher. -/
def considerStrategy (df : List Row) (symbol timeframe : String) (regime : MarketRegime)
    (best : Option TradeSignal) (strat : StratFun) : Option TradeSignal :=
  match strat df symbol timeframe regime with
  | .error _ => best
  | .ok none => best
  | .ok (some sig) =>
      match best with
      | none => some sig
      | some b => if sig.confidence_score > b.confidence_score then some sig else best

/-- The full strategy loop of `SignalEngine.generate_signal`: fold
`considerStrategy` over the eligible strategies, starting from no best
signal. -/
def bestOf (strats : List StratFun) (df : List Row) (symbol timeframe : String)
    (regime : MarketRegime) : Option TradeSignal :=
  strats.foldl (considerStrategy df symbol timeframe regime) none

/-- Demo fallback signal, from `SignalEngine.generate_signal` step 4:
a deterministic BUY derived from the latest close (entry zone plus/minus
0.5 percent, stop-loss minus 1.5 percent, take-profits plus 2 and 4
percent, confidence 0.9). -/
def demoFallback (symbol timeframe : String) (last : Row) : TradeSignal :=
  let price := last.close
  { symbol := symbol, timeframe := timeframe, action := .BUY,
    strategy_name := "DemoTrendContinuation",
    entry_zone := some (price * (995/1000), price * (1005/1000)),
    stop_loss := some (price * (985/1000)),
    take_profits := some [price * (102/100), price * (104/100)],
    risk_rating := .MEDIUM, confidence_score := 9/10, regime := .TREND_UP,
    context := [("close", price), ("ema20", last.ema20.getD price),
                ("ema50", last.ema50.getD (price * (99/100))),
                ("rsi14", last.rsi14.getD 60)] }

/-- Demo-mode path of `SignalEngine.generate_signal` (`use_mock=True`):
the regime is short-circuited to TREND_UP, the strategy loop runs with
per-strategy fault isolation, and when no proposal was selected the
fallback reads `df.iloc[-1]` - an uncaught IndexError (`Except.error`)
when the synthetic frame is empty. -/
def generateSignalMock (strats : List StratFun) (df : List Row) (symbol timeframe : String) :
    Except Unit TradeSignal :=
  match bestOf strats df symbol timeframe .TREND_UP with
  | some sig => .ok sig
  | none =>
      match df.getLast? with
      | none => .error ()
      | some last => .ok (demoFallback symbol timeframe last)

/-- Non-demo path of `SignalEngine.generate_signal` (`use_mock=False`) on
the already-annotated, post-`dropna` frame: an empty frame yields `none`
(no setup, not an error), a failure inside regime detection propagates,
and otherwise the strategy loop's best proposal (or `none`) is returned. -/
def generateSignalReal (df : List Row) (symbol timeframe : String) :
    Except Unit (Option TradeSignal) :=
  if df.length = 0 then .ok none
  else
    match computeTrendDirection df with
    | .error e => .error e
    | .ok regime => .ok (bestOf (strategyRegistry regime) df symbol timeframe regime)

/-- Closes of `_mock_uptrend_df(n)` (`bot/engine/orchestrator.py`) that
survive `add_basic_indicators` followed by `dropna`: close `100 + i*0.5`
at row index `i`, keeping exactly the rows with `199 ≤ i < n`.  The 200-bar
EMA column of the external indicator library has its first defined value at
row index 199 (its minimum period equals its window) and the longest
warm-up of all added columns, so `dropna` removes precisely rows 0..198. -/
def mockSurvivingCloses (n : ℕ) : List ℚ :=
  ((List.range n).drop 199).map (fun i => 100 + (i : ℚ) * (1/2))

/-- Row of the synthetic demo frame for a given close (`open = close`,
`high = close*1.01`, `low = close*0.99`, `volume = 1000`).  Indicator
values are left absent here: the theorems below evaluate the mock path only
where the surviving row list is empty (fewer than 200 requested bars), so
no indicator value of the synthetic frame is ever inspected. -/
def mockRow (c : ℚ) : Row :=
  { open_price := c, high := c * (101/100), low := c * (99/100), close := c, volume := 1000 }

/-- Open position, mirroring the dict built in `Backtester.run_backtest`
(`bot/backtest/engine.py`): direction `1` (long) or `-1` (short), entry at
the signal bar's close, first take-profit (when any) and stop-loss taken
from the signal. -/
structure Position where
  direction : ℤ
  entry_price : ℚ
  take_profit : Option ℚ
  stop_loss : Option ℚ
deriving DecidableEq, Repr

/-- Running state of the backtest replay loop of `Backtester.run_backtest`.
The fields `entries` and `exits` are pure event counters added as
observers for the entry/exit bookkeeping the claims talk about: `entries`
increments exactly where the source builds a position dict, `exits`
exactly where `close_position` records a closed trade. -/
structure BtState where
  trades : List ℚ
  equity : ℚ
  peak_equity : ℚ
  max_drawdown : ℚ
  position : Option Position
  entries : ℕ
  exits : ℕ
deriving DecidableEq, Repr

/-- Initial replay state of `Backtester.run_backtest`: no trades, equity 1,
peak 1, drawdown 0, no open position. -/
def initState : BtState :=
  { trades := [], equity := 1, peak_equity := 1, max_drawdown := 0,
    position := none, entries := 0, exits := 0 }

/-- The nested `close_position(exit_price)` of `Backtester.run_backtest`:
record the percentage return, compound equity, update peak equity and
maximum drawdown, and clear the position; a no-op when no position is
open. -/
def closePosition (exit_price : ℚ) (st : BtState) : BtState :=
  match st.position with
  | none => st
  | some p =>
      let pct_return := (exit_price - p.entry_price) / p.entry_price * (p.direction : ℚ)
      let equity := st.equity * (1 + pct_return)
      let peak_equity := max st.peak_equity equity
      let max_drawdown :=
        if 0 < peak_equity then max st.max_drawdown ((peak_equity - equity) / peak_equity)
        else st.max_drawdown
      { trades := st.trades ++ [pct_return], equity := equity,
        peak_equity := peak_equity, max_drawdown := max_drawdown,
        position := none, entries := st.entries, exits := st.exits + 1 }

/-- Long stop-loss trigger of the replay: a stop price is set and the bar's
low crosses it. -/
def stopHitLong (p : Position) (low : ℚ) : Bool :=
  match p.stop_loss with
  | some sl => decide (low ≤ sl)
  | none => false

/-- Long take-profit trigger of the replay: a take-profit price is set and
the bar's high crosses it. -/
def tpHitLong (p : Position) (high : ℚ) : Bool :=
  match p.take_profit with
  | some tp => decide (high ≥ tp)
  | none => false

/-- Short stop-loss trigger of the replay: a stop price is set and the
bar's high crosses it. -/
def stopHitShort (p : Position) (high : ℚ) : Bool :=
  match p.stop_loss with
  | some sl => decide (high ≥ sl)
  | none => false

/-- Short take-profit trigger of the replay: a take-profit price is set and
the bar's low crosses it. -/
def tpHitShort (p : Position) (low : ℚ) : Bool :=
  match p.take_profit with
  | some tp => decide (low ≤ tp)
  | none => false

/-- Whether the current bar's signal exists and carries the given action. -/
def isAction (signal : Option TradeSignal) (a : TradeAction) : Bool :=
  match signal with
  | some s => decide (s.action = a)
  | none => false

/-- Exit-price resolution for an open position on one bar, from the
`if position:` block of `Backtester.run_backtest`: stop-loss first (exit at
the stop price), then take-profit (exit at the take-profit price), then an
opposing strategy action (exit at the bar's close); `none` when no exit
condition matches. -/
def exitPriceFor (p : Position) (high low close : ℚ) (signal : Option TradeSignal) :
    Option ℚ :=
  if p.direction = 1 then
    if stopHitLong p low then p.stop_loss
    else if tpHitLong p high then p.take_profit
    else if isAction signal .SELL then some close
    else none
  else
    if stopHitShort p high then p.stop_loss
    else if tpHitShort p low then p.take_profit
    else if isAction signal .BUY then some close
    else none

/-- History slice that the replay passes to regime detection and to the
strategy: `candles.iloc[: idx + 1]` at the bar whose position in the
post-`dropna` frame is `p` and whose index label `idx` is `offset + p`
(after `add_basic_indicators` and `dropna` the surviving rows keep their
original labels, which start at the indicator warm-up offset, not at 0,
while `iloc` slices by position).  The slice therefore takes
`offset + p + 1` rows of the frame. -/
def historyAt (offset : ℕ) (rows : List Row) (p : ℕ) : List Row :=
  rows.take (offset + p + 1)

/-- Exit handling block of the replay loop (`if position:` in
`Backtester.run_backtest`): when a position is open and an exit condition
matches, close it at the resolved exit price. -/
def exitPhase (signal : Option TradeSignal) (row : Row) (st : BtState) : BtState :=
  match st.position with
  | some p =>
      match exitPriceFor p row.high row.low row.close signal with
      | some e => closePosition e st
      | none => st
  | none => st

/-- Entry handling block of the replay loop (`if position is None and
signal and signal.action in (BUY, SELL)` in `Backtester.run_backtest`):
when flat and the bar's signal carries BUY or SELL, open a position at the
bar's close, with the first take-profit (when the signal carries a
nonempty take-profit list) and the signal's stop-loss. -/
def entryPhase (signal : Option TradeSignal) (row : Row) (st : BtState) : BtState :=
  match st.position with
  | some _ => st
  | none =>
      match signal with
      | none => st
      | some s =>
          if s.action = .BUY ∨ s.action = .SELL then
            { st with
              position := some
                { direction := if s.action = .BUY then 1 else -1,
                  entry_price := row.close,
                  take_profit := match s.take_profits with
                                 | some (tp :: _) => some tp
                                 | _ => none,
                  stop_loss := s.stop_loss },
              entries := st.entries + 1 }
          else st

/-- One iteration of the replay loop of `Backtester.run_backtest` at the
bar `pr.2` sitting at position `pr.1`.  The parameter `sig` stands for
`fun h => strategy.generate_signal(h, symbol, timeframe, detect_regime(h))`
as a total function: in the source an exception there aborts the whole
run, so a completed run corresponds to a total `sig`.  Exit handling for
an open position comes first, then (possibly on the same bar, right after
an opposing-signal or stop/take-profit exit) entry on a BUY or SELL
signal. -/
def barStep (sig : List Row → Option TradeSignal) (offset : ℕ) (rows : List Row)
    (st : BtState) (pr : ℕ × Row) : BtState :=
  let signal := sig (historyAt offset rows pr.1)
  entryPhase signal pr.2 (exitPhase signal pr.2 st)

/-- Replay state after the first `p` bars of the loop of
`Backtester.run_backtest` (before the forced final close). -/
def stateAfter (sig : List Row → Option TradeSignal) (offset : ℕ) (rows : List Row)
    (p : ℕ) : BtState :=
  ((rows.enum).take p).foldl (barStep sig offset rows) initState

/-- Replay state after the whole bar loop of `Backtester.run_backtest`
(before the forced final close). -/
def runLoop (sig : List Row → Option TradeSignal) (offset : ℕ) (rows : List Row) :
    BtState :=
  (rows.enum).foldl (barStep sig offset rows) initState

/-- Full replay of `Backtester.run_backtest` on the post-`dropna` candle
frame `rows` whose first surviving index label is `offset`: the bar loop,
then the forced close of any still-open position at the final bar's close
(`close_position` itself guards the no-position case). -/
def runBacktest (sig : List Row → Option TradeSignal) (offset : ℕ) (rows : List Row) :
    BtState :=
  let st := runLoop sig offset rows
  match rows.getLast? with
  | none => st
  | some lastRow => closePosition lastRow.close st

/-- Profit factor value: a genuine rational, or positive infinity, from the
`float("inf")` branch of `Backtester.run_backtest`. -/
inductive PFValue where
  | inf
  | val (q : ℚ)
deriving DecidableEq, Repr

/-- Number of winning trades (`len([t for t in trades if t > 0])`). -/
def winsCount (trades : List ℚ) : ℕ :=
  (trades.filter (fun t => decide (0 < t))).length

/-- Gross profit (`sum(t for t in trades if t > 0)`). -/
def grossProfit (trades : List ℚ) : ℚ :=
  (trades.filter (fun t => decide (0 < t))).sum

/-- Gross loss (`abs(sum(t for t in trades if t < 0))`). -/
def grossLoss (trades : List ℚ) : ℚ :=
  |(trades.filter (fun t => decide (t < 0))).sum|

/-- Win rate (`wins / trades_count * 100 if trades_count else 0.0`). -/
def winRate (trades : List ℚ) : ℚ :=
  if trades.length = 0 then 0
  else (winsCount trades : ℚ) / (trades.length : ℚ) * 100

/-- Profit factor
(`gross_profit / gross_loss if gross_loss > 0 else (inf if gross_profit > 0 else 0.0)`). -/
def profitFactor (trades : List ℚ) : PFValue :=
  if 0 < grossLoss trades then .val (grossProfit trades / grossLoss trades)
  else if 0 < grossProfit trades then .inf
  else .val 0

/-- Total return percentage (`(equity - 1) * 100`). -/
def totalReturnPct (st : BtState) : ℚ :=
  (st.equity - 1) * 100

/-- Maximum drawdown percentage (`max_drawdown * 100`). -/
def maxDrawdownPct (st : BtState) : ℚ :=
  st.max_drawdown * 100

/-! ## Concrete example inputs used by witnesses and counterexamples -/

/-- Strategy behaviour that emits one BUY on the very first bar (history of
length 1) with no stop-loss and no take-profits, and abstains afterwards. -/
def oneLossSig : List Row → Option TradeSignal := fun h =>
  if h.length = 1 then
    some { symbol := "BTC/USDT", timeframe := "1h", action := .BUY,
           strategy_name := "TrendContinuation", entry_zone := none,
           stop_loss := none, take_profits := none, risk_rating := .MEDIUM,
           confidence_score := 1/2, regime := .TREND_UP, context := [] }
  else none

/-- Two-bar frame on which `oneLossSig` enters long at close 100 and the
forced final close at 50 books a single losing trade of -50 percent. -/
def oneLossRows : List Row :=
  [ { open_price := 100, high := 101, low := 99, close := 100, volume := 1 },
    { open_price := 50, high := 60, low := 40, close := 50, volume := 1 } ]

/-- Bar with constant price 100 and all trend averages at 100: a maximally
quiescent, compressed market. -/
def rangeRow : Row :=
  { open_price := 100, high := 100, low := 100, close := 100, volume := 1,
    ema20 := some 100, ema50 := some 100, ema200 := some 100 }

/-- Twenty quiescent bars: flat slopes, zero range, close on the averages. -/
def rangeFrame : List Row := List.replicate 20 rangeRow

/-- Bar with constant price 100 but all trend averages at 200: flat slopes
and a fully compressed range, yet the close sits 50 percent away from the
50-bar average. -/
def chopRow : Row :=
  { open_price := 100, high := 100, low := 100, close := 100, volume := 1,
    ema20 := some 200, ema50 := some 200, ema200 := some 200 }

/-- Twenty such bars: satisfies the slope and range-compression conditions
but not the close-to-average condition. -/
def chopFrame : List Row := List.replicate 20 chopRow

/-- Bar with the required close/high/low/volume fields present and every
optional indicator field (in particular `rsi14`) absent. -/
def noRsiRow : Row :=
  { open_price := 100, high := 101, low := 99, close := 100, volume := 1 }

/-- Strategy stub that raises on every input (models a faulty strategy
whose evaluation throws). -/
def faultyStrat : StratFun := fun _ _ _ _ => .error ()

/-! ## Helper lemmas -/

/-- Number of currently open positions of a replay state (0 or 1 by the
shape of `BtState.position`). -/
def openCount (st : BtState) : ℕ :=
  if st.position.isSome then 1 else 0

/-- Entry/exit bookkeeping invariant of the replay: the number of entry
events equals the number of exit events plus the number of currently open
positions. -/
def BtBalanced (st : BtState) : Prop :=
  st.entries = st.exits + openCount st

theorem openCount_le_one (st : BtState) : openCount st ≤ 1 := by
  unfold openCount
  split <;> simp

theorem closePosition_position_none (e : ℚ) (st : BtState) :
    (closePosition e st).position = none := by
  unfold closePosition
  cases hp : st.position <;> simp [hp]

theorem closePosition_balanced (e : ℚ) (st : BtState) (h : BtBalanced st) :
    BtBalanced (closePosition e st) := by
  unfold BtBalanced openCount at h
  unfold BtBalanced openCount closePosition
  cases hp : st.position with
  | none => simp [hp] at h ⊢; omega
  | some p => simp [hp] at h ⊢; omega

theorem closePosition_entries_exits (e : ℚ) (st : BtState) (h : BtBalanced st) :
    (closePosition e st).entries = (closePosition e st).exits := by
  have hb := closePosition_balanced e st h
  unfold BtBalanced openCount at hb
  rw [closePosition_position_none] at hb
  simpa using hb

theorem exitPhase_balanced (signal : Option TradeSignal) (row : Row) (st : BtState)
    (h : BtBalanced st) : BtBalanced (exitPhase signal row st) := by
  unfold exitPhase
  split
  · split
    · exact closePosition_balanced _ st h
    · exact h
  · exact h

theorem entryPhase_balanced (signal : Option TradeSignal) (row : Row) (st : BtState)
    (h : BtBalanced st) : BtBalanced (entryPhase signal row st) := by
  unfold BtBalanced openCount at h
  unfold BtBalanced openCount entryPhase
  split
  · exact h
  · split
    · exact h
    · split
      · simp_all
      · exact h

theorem barStep_balanced (sig : List Row → Option TradeSignal) (offset : ℕ)
    (rows : List Row) (st : BtState) (pr : ℕ × Row) (h : BtBalanced st) :
    BtBalanced (barStep sig offset rows st pr) :=
  entryPhase_balanced _ _ _ (exitPhase_balanced _ _ _ h)

theorem foldl_balanced (sig : List Row → Option TradeSignal) (offset : ℕ)
    (rows : List Row) (l : List (ℕ × Row)) (st : BtState) (h : BtBalanced st) :
    BtBalanced (l.foldl (barStep sig offset rows) st) := by
  induction l generalizing st with
  | nil => exact h
  | cons pr rest ih => exact ih _ (barStep_balanced sig offset rows st pr h)

theorem initState_balanced : BtBalanced initState := by
  simp [BtBalanced, openCount, initState]

theorem runLoop_balanced (sig : List Row → Option TradeSignal) (offset : ℕ)
    (rows : List Row) : BtBalanced (runLoop sig offset rows) :=
  foldl_balanced sig offset rows (rows.enum) initState initState_balanced

/-! ## Claim theorems -/

/-- C2: for every bar sequence (and every strategy behaviour), the replay
of `Backtester.run_backtest` holds at most one open position at any point
(entry events never exceed exit events by more than one, and exits never
exceed entries), and at run end, after the forced final-bar close, the
number of position entries equals the number of position exits and no
position remains open. -/
theorem backtest_position_accounting (sig : List Row → Option TradeSignal)
    (offset : ℕ) (rows : List Row) :
    ((runBacktest sig offset rows).entries = (runBacktest sig offset rows).exits ∧
      (runBacktest sig offset rows).position = none) ∧
    ∀ p : ℕ,
      (stateAfter sig offset rows p).exits ≤ (stateAfter sig offset rows p).entries ∧
      (stateAfter sig offset rows p).entries ≤ (stateAfter sig offset rows p).exits + 1 := by
  constructor
  · unfold runBacktest
    cases hl : rows.getLast? with
    | none =>
        have hrows : rows = [] := by
          cases rows with
          | nil => rfl
          | cons a l => simp at hl
        subst hrows
        simp [runLoop, initState]
    | some lastRow =>
        exact ⟨closePosition_entries_exits _ _ (runLoop_balanced sig offset rows),
               closePosition_position_none _ _⟩
  · intro p
    have hb := foldl_balanced sig offset rows ((rows.enum).take p) initState initState_balanced
    unfold BtBalanced at hb
    have hoc := openCount_le_one (((rows.enum).take p).foldl (barStep sig offset rows) initState)
    unfold stateAfter
    omega

/-- C3: on every bar with an open position at most one exit condition is
honored, in priority order stop-loss (exit at the stop price), then
take-profit (exit at the take-profit price), then opposing strategy action
(exit at the bar's close), for longs and shorts alike; and on the final
bar any still-open position is closed at that bar's close (the forced
`close_position(candles.iloc[-1]["close"])`). -/
theorem backtest_exit_priority :
    (∀ (p : Position) (high low close : ℚ) (signal : Option TradeSignal) (sl : ℚ),
      p.direction = 1 → p.stop_loss = some sl → low ≤ sl →
      exitPriceFor p high low close signal = some sl) ∧
    (∀ (p : Position) (high low close : ℚ) (signal : Option TradeSignal) (tp : ℚ),
      p.direction = 1 → stopHitLong p low = false → p.take_profit = some tp →
      tp ≤ high → exitPriceFor p high low close signal = some tp) ∧
    (∀ (p : Position) (high low close : ℚ) (signal : Option TradeSignal),
      p.direction = 1 → stopHitLong p low = false → tpHitLong p high = false →
      isAction signal .SELL = true → exitPriceFor p high low close signal = some close) ∧
    (∀ (p : Position) (high low close : ℚ) (signal : Option TradeSignal),
      p.direction = 1 → stopHitLong p low = false → tpHitLong p high = false →
      isAction signal .SELL = false → exitPriceFor p high low close signal = none) ∧
    (∀ (p : Position) (high low close : ℚ) (signal : Option TradeSignal) (sl : ℚ),
      p.direction = -1 → p.stop_loss = some sl → sl ≤ high →
      exitPriceFor p high low close signal = some sl) ∧
    (∀ (p : Position) (high low close : ℚ) (signal : Option TradeSignal) (tp : ℚ),
      p.direction = -1 → stopHitShort p high = false → p.take_profit = some tp →
      low ≤ tp → exitPriceFor p high low close signal = some tp) ∧
    (∀ (p : Position) (high low close : ℚ) (signal : Option TradeSignal),
      p.direction = -1 → stopHitShort p high = false → tpHitShort p low = false →
      isAction signal .BUY = true → exitPriceFor p high low close signal = some close) ∧
    (∀ (p : Position) (high low close : ℚ) (signal : Option TradeSignal),
      p.direction = -1 → stopHitShort p high = false → tpHitShort p low = false →
      isAction signal .BUY = false → exitPriceFor p high low close signal = none) ∧
    (∀ (sig : List Row → Option TradeSignal) (offset : ℕ) (rows : List Row)
      (lastRow : Row), rows.getLast? = some lastRow →
      runBacktest sig offset rows = closePosition lastRow.close (runLoop sig offset rows)) ∧
    (∀ (e : ℚ) (st : BtState) (p : Position), st.position = some p →
      (closePosition e st).position = none ∧
      (closePosition e st).trades =
        st.trades ++ [(e - p.entry_price) / p.entry_price * (p.direction : ℚ)]) := by
  refine ⟨?_, ?_, ?_, ?_, ?_, ?_, ?_, ?_, ?_, ?_⟩
  · intro p high low close signal sl hdir hsl hle
    simp [exitPriceFor, stopHitLong, hdir, hsl, hle]
  · intro p high low close signal tp hdir hstop htp hge
    simp [exitPriceFor, hdir, hstop, tpHitLong, htp, ge_iff_le, hge]
  · intro p high low close signal hdir hstop htp hsell
    simp [exitPriceFor, hdir, hstop, htp, hsell]
  · intro p high low close signal hdir hstop htp hsell
    simp [exitPriceFor, hdir, hstop, htp, hsell]
  · intro p high low close signal sl hdir hsl hle
    rw [exitPriceFor, if_neg (by rw [hdir]; decide)]
    simp [stopHitShort, hsl, ge_iff_le, hle]
  · intro p high low close signal tp hdir hstop htp hle
    rw [exitPriceFor, if_neg (by rw [hdir]; decide)]
    simp [hstop, tpHitShort, htp, hle]
  · intro p high low close signal hdir hstop htp hbuy
    rw [exitPriceFor, if_neg (by rw [hdir]; decide)]
    simp [hstop, htp, hbuy]
  · intro p high low close signal hdir hstop htp hbuy
    rw [exitPriceFor, if_neg (by rw [hdir]; decide)]
    simp [hstop, htp, hbuy]
  · intro sig offset rows lastRow hl
    unfold runBacktest
    rw [hl]
  · intro e st p hp
    refine ⟨closePosition_position_none e st, ?_⟩
    unfold closePosition
    simp [hp]

/-- Witness for C3: a long position with stop 95 and take-profit 110 on a
bar with low 94 and high 120 (both conditions crossed) exits at the stop
price 95, the first-priority condition. -/
theorem backtest_exit_priority_witness :
    exitPriceFor ⟨1, 100, some 110, some 95⟩ 120 94 118 none = some 95 :=
  backtest_exit_priority.1 ⟨1, 100, some 110, some 95⟩ 120 94 118 none 95
    rfl rfl (by norm_num)

theorem grossProfit_nonneg (tr : List ℚ) : 0 ≤ grossProfit tr := by
  unfold grossProfit
  apply List.sum_nonneg
  intro x hx
  exact le_of_lt (of_decide_eq_true (List.mem_filter.mp hx).2)

theorem grossLoss_nonneg (tr : List ℚ) : 0 ≤ grossLoss tr :=
  abs_nonneg _

theorem grossProfit_pos_length (tr : List ℚ) (h : 0 < grossProfit tr) :
    0 < tr.length := by
  by_contra hlen
  push_neg at hlen
  have htr : tr = [] := List.length_eq_zero.mp (Nat.le_zero.mp hlen)
  subst htr
  simp [grossProfit] at h

theorem profitFactor_spec (tr : List ℚ) :
    (profitFactor tr = .inf ↔
      0 < tr.length ∧ grossLoss tr = 0 ∧ 0 < grossProfit tr) ∧
    (profitFactor tr = .val 0 ↔ grossProfit tr = 0) ∧
    (0 < grossLoss tr → profitFactor tr = .val (grossProfit tr / grossLoss tr)) := by
  by_cases hgl : 0 < grossLoss tr
  · refine ⟨?_, ?_, fun _ => by rw [profitFactor, if_pos hgl]⟩
    · constructor
      · intro h
        rw [profitFactor, if_pos hgl] at h
        exact absurd h (by simp)
      · rintro ⟨-, hgl0, -⟩
        rw [hgl0] at hgl
        exact absurd hgl (by norm_num)
    · rw [profitFactor, if_pos hgl]
      constructor
      · intro h
        simp only [PFValue.val.injEq] at h
        rcases div_eq_zero_iff.mp h with h2 | h2
        · exact h2
        · exact absurd h2 (ne_of_gt hgl)
      · intro h
        rw [h, zero_div]
  · have hgl0 : grossLoss tr = 0 := le_antisymm (not_lt.mp hgl) (grossLoss_nonneg tr)
    by_cases hgp : 0 < grossProfit tr
    · refine ⟨?_, ?_, fun hc => absurd hc hgl⟩
      · rw [profitFactor, if_neg hgl, if_pos hgp]
        exact iff_of_true rfl ⟨grossProfit_pos_length tr hgp, hgl0, hgp⟩
      · constructor
        · intro h
          rw [profitFactor, if_neg hgl, if_pos hgp] at h
          exact absurd h (by simp)
        · intro h
          rw [h] at hgp
          exact absurd hgp (by norm_num)
    · have hgp0 : grossProfit tr = 0 :=
        le_antisymm (not_lt.mp hgp) (grossProfit_nonneg tr)
      refine ⟨?_, ?_, fun hc => absurd hc hgl⟩
      · constructor
        · intro h
          rw [profitFactor, if_neg hgl, if_neg hgp] at h
          exact absurd h (by simp)
        · rintro ⟨-, -, hp⟩
          rw [hgp0] at hp
          exact absurd hp (by norm_num)
      · rw [profitFactor, if_neg hgl, if_neg hgp]
        exact iff_of_true rfl hgp0

theorem winRate_spec (tr : List ℚ) :
    0 ≤ winRate tr ∧ winRate tr ≤ 100 ∧ (winRate tr = 0 ↔ winsCount tr = 0) := by
  unfold winRate
  by_cases h : tr.length = 0
  · rw [if_pos h]
    refine ⟨le_refl 0, by norm_num, ?_⟩
    have htr : tr = [] := List.length_eq_zero.mp h
    subst htr
    simp [winsCount]
  · rw [if_neg h]
    have hlen : 0 < tr.length := Nat.pos_of_ne_zero h
    have hlenQ : (0 : ℚ) < tr.length := by exact_mod_cast hlen
    have hw : winsCount tr ≤ tr.length := List.length_filter_le _ _
    have hwQ : (winsCount tr : ℚ) ≤ (tr.length : ℚ) := by exact_mod_cast hw
    refine ⟨by positivity, ?_, ?_⟩
    · rw [div_mul_eq_mul_div, div_le_iff₀ hlenQ]
      nlinarith
    · constructor
      · intro h0
        rcases mul_eq_zero.mp h0 with h1 | h1
        · rcases div_eq_zero_iff.mp h1 with h2 | h2
          · exact_mod_cast h2
          · exact absurd h2 (ne_of_gt hlenQ)
        · norm_num at h1
      · intro h0
        rw [h0]
        norm_num

/-- C4 (amended): for every completed backtest run, the reported profit
factor is positive infinity exactly when the trade count is positive,
gross loss is 0 and gross profit is positive; it equals 0 exactly when
gross profit is 0 (whether or not losses occurred); and whenever gross
loss is positive it equals gross profit divided by gross loss. -/
theorem backtest_profit_factor (sig : List Row → Option TradeSignal)
    (offset : ℕ) (rows : List Row) :
    (profitFactor (runBacktest sig offset rows).trades = .inf ↔
      0 < (runBacktest sig offset rows).trades.length ∧
      grossLoss (runBacktest sig offset rows).trades = 0 ∧
      0 < grossProfit (runBacktest sig offset rows).trades) ∧
    (profitFactor (runBacktest sig offset rows).trades = .val 0 ↔
      grossProfit (runBacktest sig offset rows).trades = 0) ∧
    (0 < grossLoss (runBacktest sig offset rows).trades →
      profitFactor (runBacktest sig offset rows).trades =
        .val (grossProfit (runBacktest sig offset rows).trades /
              grossLoss (runBacktest sig offset rows).trades)) :=
  profitFactor_spec (runBacktest sig offset rows).trades

/-- Witness for C4: the concrete one-losing-trade run has positive gross
loss, and its profit factor is the quotient of gross profit by gross
loss. -/
theorem backtest_profit_factor_witness :
    profitFactor (runBacktest oneLossSig 0 oneLossRows).trades =
      .val (grossProfit (runBacktest oneLossSig 0 oneLossRows).trades /
            grossLoss (runBacktest oneLossSig 0 oneLossRows).trades) :=
  (backtest_profit_factor oneLossSig 0 oneLossRows).2.2 (by
    norm_num [runBacktest, runLoop, barStep, historyAt, oneLossSig, oneLossRows,
      initState, closePosition, exitPriceFor, stopHitLong, tpHitLong, stopHitShort,
      tpHitShort, isAction, exitPhase, entryPhase, List.enum, List.enumFrom,
      grossLoss, List.filter])

/-- Counterexample to C4 as stated: a run with exactly one losing trade
reports profit factor 0 although a loss occurred (gross loss is 1/2, not
0), so "profit factor is 0 iff there is neither profit nor loss" fails. -/
theorem profit_factor_zero_with_loss :
    profitFactor (runBacktest oneLossSig 0 oneLossRows).trades = .val 0 ∧
    grossProfit (runBacktest oneLossSig 0 oneLossRows).trades = 0 ∧
    grossLoss (runBacktest oneLossSig 0 oneLossRows).trades = 1/2 := by
  norm_num [runBacktest, runLoop, barStep, historyAt, oneLossSig, oneLossRows,
    initState, closePosition, exitPriceFor, stopHitLong, tpHitLong, stopHitShort,
    tpHitShort, isAction, exitPhase, entryPhase, List.enum, List.enumFrom,
    profitFactor, grossLoss, grossProfit, List.filter]

/-- C5 (amended): for every completed backtest run the reported win rate
lies in [0, 100], and it equals 0 exactly when the run has no winning
trades - in particular it is 0 when the trade count is 0, but also when
every closed trade lost. -/
theorem backtest_win_rate (sig : List Row → Option TradeSignal)
    (offset : ℕ) (rows : List Row) :
    0 ≤ winRate (runBacktest sig offset rows).trades ∧
    winRate (runBacktest sig offset rows).trades ≤ 100 ∧
    (winRate (runBacktest sig offset rows).trades = 0 ↔
      winsCount (runBacktest sig offset rows).trades = 0) :=
  winRate_spec (runBacktest sig offset rows).trades

/-- Counterexample to C5 as stated: the one-losing-trade run closes one
trade yet reports win rate 0, so "win rate is 0 iff trade count is 0"
fails. -/
theorem win_rate_zero_with_trades :
    winRate (runBacktest oneLossSig 0 oneLossRows).trades = 0 ∧
    (runBacktest oneLossSig 0 oneLossRows).trades.length = 1 := by
  norm_num [runBacktest, runLoop, barStep, historyAt, oneLossSig, oneLossRows,
    initState, closePosition, exitPriceFor, stopHitLong, tpHitLong, stopHitShort,
    tpHitShort, isAction, exitPhase, entryPhase, List.enum, List.enumFrom,
    winRate, winsCount, List.filter]

/-- C1 (refuted; supports the code-bug verdict): whenever the post-dropna
frame's labels start at a positive offset - which is always the case after
`add_basic_indicators` plus `dropna`, whose 200-bar EMA warm-up removes the
first 199 rows - the history slice `candles.iloc[: idx + 1]` computed by
`Backtester.run_backtest` at the first replayed bar is NOT the one-bar
history the claim describes: it holds at least two bars, i.e. it exposes
bars after the current one to regime detection and the strategy. -/
theorem backtest_history_lookahead (offset : ℕ) (rows : List Row)
    (hoff : 0 < offset) (hlen : 2 ≤ rows.length) :
    historyAt offset rows 0 ≠ rows.take (0 + 1) ∧
    2 ≤ (historyAt offset rows 0).length := by
  have h2 : 2 ≤ (historyAt offset rows 0).length := by
    simp only [historyAt, List.length_take]
    omega
  refine ⟨?_, h2⟩
  intro heq
  have hlme := congrArg List.length heq
  rw [List.length_take] at hlme
  rw [hlme] at h2
  omega

/-- Witness for C1: with the warm-up offset 199 of the real pipeline and a
201-bar frame, the first replayed bar's history is not the single-bar
prefix the claim describes. -/
theorem backtest_history_lookahead_witness :
    historyAt 199 (List.replicate 201 noRsiRow) 0 ≠ (List.replicate 201 noRsiRow).take (0 + 1) ∧
    2 ≤ (historyAt 199 (List.replicate 201 noRsiRow) 0).length :=
  backtest_history_lookahead 199 (List.replicate 201 noRsiRow) (by norm_num)
    (by rw [List.length_replicate]; norm_num)

/-- C6: in the strategy loop of `SignalEngine.generate_signal`, a strategy
whose evaluation raises is caught and skipped, and the selected signal is
exactly what the remaining strategies (before and after it, in order)
would have produced on their own: one faulty strategy neither aborts the
run nor changes the outcome derived from the other strategies. -/
theorem faulty_strategy_isolated (pre post : List StratFun) (f : StratFun)
    (df : List Row) (symbol timeframe : String) (regime : MarketRegime)
    (hf : f df symbol timeframe regime = .error ()) :
    bestOf (pre ++ f :: post) df symbol timeframe regime =
      bestOf (pre ++ post) df symbol timeframe regime := by
  unfold bestOf
  rw [List.foldl_append, List.foldl_append, List.foldl_cons]
  have hstep : considerStrategy df symbol timeframe regime
      (List.foldl (considerStrategy df symbol timeframe regime) none pre) f =
      List.foldl (considerStrategy df symbol timeframe regime) none pre := by
    unfold considerStrategy
    rw [hf]
  rw [hstep]

/-- Witness for C6: dropping an always-raising strategy from the front of
the eligible list leaves the selection over the remaining strategies
unchanged. -/
theorem faulty_strategy_isolated_witness :
    bestOf [faultyStrat, rangeReversionSignal] [] "" "" .CHOPPY =
      bestOf [rangeReversionSignal] [] "" "" .CHOPPY :=
  faulty_strategy_isolated [] [rangeReversionSignal] faultyStrat [] "" "" .CHOPPY rfl

/-- C7 (refuted; supports the code-bug verdict): with demo mode active and
a bar-count limit of 50 (any limit below 200 behaves the same), the
synthetic frame is empty after indicator warm-up removal, the eligible
TrendContinuation strategy raises on the empty frame and is skipped, and
the demo fallback's `df.iloc[-1]` then raises an uncaught IndexError: the
call errors out instead of returning the promised BUY TradeSignal. -/
theorem mock_small_limit_raises :
    generateSignalMock (strategyRegistry .TREND_UP)
      ((mockSurvivingCloses 50).map mockRow) "BTC/USDT" "5m" = .error () := by
  norm_num [generateSignalMock, strategyRegistry, mockSurvivingCloses, bestOf,
    considerStrategy, trendContinuationSignal, List.range, List.range.loop]

/-- C8 (amended): for every bar window whose short and medium slope
magnitudes are below 0.001 and 0.0008, whose trailing 60-bar close range
is under 5 percent of the trailing mean close, whose trailing close window
holds at least 20 bars, and whose current close sits within 2 percent of
the 50-bar average, the regime classifier returns RANGE. -/
theorem regime_range_classification (df : List Row) (last : Row) (e20 e50 s20 s50 : ℚ)
    (hlast : (regimeRecent df).getLast? = some last)
    (h20 : last.ema20 = some e20) (h50 : last.ema50 = some e50)
    (hs20 : emaSlope ((regimeRecent df).map (·.ema20)) 25 = .ok s20)
    (hs50 : emaSlope ((regimeRecent df).map (·.ema50)) 35 = .ok s50)
    (ha20 : |s20| < 1/1000) (ha50 : |s50| < 1/1250)
    (hlen : 20 ≤ (listTail ((regimeRecent df).map (·.close)) 60).length)
    (hrange : pctRangeOf (listTail ((regimeRecent df).map (·.close)) 60) < 1/20)
    (hclose : closeToEmaOf last.close e50 < 1/50) :
    computeTrendDirection df = .ok .RANGE := by
  unfold computeTrendDirection
  simp only [hlast, h20, h50, hs20, hs50]
  have hn1 : ¬((e20 > e50 ∧ e50 > last.ema200.getD e50) ∧
      s20 > 3/2000 ∧ s50 > 1/2000 ∧ last.close > e20) := by
    rintro ⟨-, hs, -⟩
    have := le_abs_self s20
    linarith
  have hn2 : ¬((e20 < e50 ∧ e50 < last.ema200.getD e50) ∧
      s20 < -(3/2000) ∧ s50 < -(1/2000) ∧ last.close < e20) := by
    rintro ⟨-, hs, -⟩
    have := neg_abs_le s20
    linarith
  rw [if_neg hn1, if_neg hn2, if_pos hlen, if_pos ⟨ha20, ha50, hrange, hclose⟩]

/-- Witness for C8: twenty flat bars at price 100 with all averages at 100
are classified RANGE. -/
theorem regime_range_classification_witness :
    computeTrendDirection rangeFrame = .ok .RANGE :=
  regime_range_classification rangeFrame rangeRow 100 100 0 0
    (by norm_num [regimeRecent, rangeFrame, rangeRow, List.replicate, listTail])
    rfl rfl
    (by norm_num [emaSlope, regimeRecent, rangeFrame, rangeRow, List.replicate, listTail])
    (by norm_num [emaSlope, regimeRecent, rangeFrame, rangeRow, List.replicate, listTail])
    (by norm_num) (by norm_num)
    (by norm_num [regimeRecent, rangeFrame, rangeRow, List.replicate, listTail])
    (by norm_num [pctRangeOf, listMax, listMin, listMean, eps9, regimeRecent,
      rangeFrame, rangeRow, List.replicate, listTail])
    (by norm_num [closeToEmaOf, eps9, rangeRow])

/-- Counterexample to C8 as stated: twenty bars with zero short and medium
slopes and zero trailing close range (prices pinned at 100) - satisfying
every condition the claim states - are classified CHOPPY, not RANGE,
because the close sits 50 percent away from the 50-bar average (all
averages are 200): the claim omits the close-to-average condition the code
also requires. -/
theorem regime_range_counterexample :
    emaSlope ((regimeRecent chopFrame).map (·.ema20)) 25 = .ok 0 ∧
    emaSlope ((regimeRecent chopFrame).map (·.ema50)) 35 = .ok 0 ∧
    pctRangeOf (listTail ((regimeRecent chopFrame).map (·.close)) 60) = 0 ∧
    computeTrendDirection chopFrame = .ok .CHOPPY := by
  refine ⟨?_, ?_, ?_, ?_⟩
  · norm_num [emaSlope, regimeRecent, chopFrame, chopRow, List.replicate, listTail]
  · norm_num [emaSlope, regimeRecent, chopFrame, chopRow, List.replicate, listTail]
  · norm_num [pctRangeOf, listMax, listMin, listMean, eps9, regimeRecent,
      chopFrame, chopRow, List.replicate, listTail]
  · norm_num [computeTrendDirection, regimeRecent, chopFrame, chopRow, emaSlope,
      listTail, pctRangeOf, closeToEmaOf, listMax, listMin, listMean, eps9,
      List.replicate]

theorem ilocNeg_ok (col : List (Option ℚ)) (k : ℕ) (hk : 1 ≤ k) (hkl : k ≤ col.length)
    (hall : ∀ x ∈ col, x.isSome) : ∃ v, ilocNeg col k = .ok v := by
  unfold ilocNeg
  rw [if_neg (by omega)]
  cases hget : col.get? (col.length - k) with
  | none =>
      have := List.get?_eq_none.mp hget
      omega
  | some x =>
      have hx : x ∈ col := List.get?_mem hget
      have hs := hall x hx
      cases x with
      | none => simp at hs
      | some v => exact ⟨v, rfl⟩

/-- C9 (amended): when the required close/high/low/volume fields are
present but the optional momentum-oscillator field `rsi14` is absent, the
TrendContinuation strategy never raises - it substitutes the fixed neutral
default 55.0 - but the RangeReversion strategy, invoked in its RANGE
regime, raises on the unguarded `last["rsi14"]` access (in any other
regime it abstains before reaching that access). -/
theorem strategies_missing_rsi :
    (∀ (df : List Row) (symbol timeframe : String) (regime : MarketRegime),
      13 ≤ df.length → (∀ r ∈ df, r.ema20.isSome ∧ r.ema50.isSome) →
      trendContinuationSignal df symbol timeframe regime ≠ .error ()) ∧
    (∀ (df : List Row) (last : Row) (symbol timeframe : String),
      df.getLast? = some last → last.rsi14 = none →
      rangeReversionSignal df symbol timeframe .RANGE = .error ()) ∧
    (∀ (df : List Row) (symbol timeframe : String) (regime : MarketRegime),
      regime ≠ .RANGE → rangeReversionSignal df symbol timeframe regime = .ok none) := by
  refine ⟨?_, ?_, ?_⟩
  · intro df symbol timeframe regime hlen hall
    unfold trendContinuationSignal
    split
    · simp
    · cases hgl : df.getLast? with
      | none =>
          have : df = [] := by
            cases df with
            | nil => rfl
            | cons a l => simp at hgl
          subst this
          simp at hlen
      | some last =>
          have hmap : ∀ (f : Row → Option ℚ), (∀ r ∈ df, (f r).isSome) →
              ∀ x ∈ df.map f, x.isSome := by
            intro f hf x hx
            rcases List.mem_map.mp hx with ⟨r, hr, hxr⟩
            rw [← hxr]
            exact hf r hr
          obtain ⟨v1, h1⟩ := ilocNeg_ok (df.map (·.ema20)) 1 (by norm_num)
            (by rw [List.length_map]; omega) (hmap _ (fun r hr => (hall r hr).1))
          obtain ⟨v2, h2⟩ := ilocNeg_ok (df.map (·.ema20)) 8 (by norm_num)
            (by rw [List.length_map]; omega) (hmap _ (fun r hr => (hall r hr).1))
          obtain ⟨v3, h3⟩ := ilocNeg_ok (df.map (·.ema50)) 1 (by norm_num)
            (by rw [List.length_map]; omega) (hmap _ (fun r hr => (hall r hr).2))
          obtain ⟨v4, h4⟩ := ilocNeg_ok (df.map (·.ema50)) 13 (by norm_num)
            (by rw [List.length_map]; omega) (hmap _ (fun r hr => (hall r hr).2))
          simp only [h1, h2, h3, h4]
          split
          · split
            · simp
            · simp
          · simp
  · intro df last symbol timeframe hlast hrsi
    unfold rangeReversionSignal
    rw [if_neg (by simp)]
    simp only [hlast, hrsi]
  · intro df symbol timeframe regime hne
    unfold rangeReversionSignal
    rw [if_pos hne]

/-- Witness for C9: thirteen bars carrying the trend averages but no
`rsi14` field do not make TrendContinuation raise in its TREND_UP
regime. -/
theorem strategies_missing_rsi_witness :
    trendContinuationSignal (List.replicate 13 rangeRow) "BTC/USDT" "1h" .TREND_UP ≠
      .error () :=
  strategies_missing_rsi.1 (List.replicate 13 rangeRow) "BTC/USDT" "1h" .TREND_UP
    (by rw [List.length_replicate]) (by
      intro r hr
      rw [List.eq_of_mem_replicate hr]
      simp [rangeRow])

/-- Counterexample to C9 as stated: a frame whose bar has close, high, low
and volume but no `rsi14` makes RangeReversion raise (KeyError on
`last["rsi14"]`) when proposed in regime RANGE, so "neither reference
strategy's propose operation raises" fails. -/
theorem range_reversion_missing_rsi_raises :
    rangeReversionSignal [noRsiRow] "BTC/USDT" "1h" .RANGE = .error () := by
  norm_num [rangeReversionSignal, noRsiRow]

/-- C10: for every regime in TREND_DOWN, CHOPPY, BREAKOUT, UNKNOWN, every
strategy the registry lists for that regime re-validates the regime
internally (TrendContinuation accepts only TREND_UP, RangeReversion only
RANGE) and abstains, the strategy loop selects nothing, and the non-demo
signal path returns no signal for any frame classified into one of those
regimes. -/
theorem foldl_abstain (df : List Row) (symbol timeframe : String) (regime : MarketRegime) :
    ∀ (strats : List StratFun) (acc : Option TradeSignal),
      (∀ s ∈ strats, s df symbol timeframe regime = .ok none) →
      strats.foldl (considerStrategy df symbol timeframe regime) acc = acc
  | [], _, _ => rfl
  | s :: rest, acc, h => by
      rw [List.foldl_cons]
      have hacc : considerStrategy df symbol timeframe regime acc s = acc := by
        unfold considerStrategy
        rw [h s (List.mem_cons_self s rest)]
      rw [hacc]
      exact foldl_abstain df symbol timeframe regime rest acc
        (fun x hx => h x (List.mem_cons_of_mem s hx))

theorem trendContinuation_wrong_regime (df : List Row) (symbol timeframe : String)
    (regime : MarketRegime) (h : regime ≠ .TREND_UP) :
    trendContinuationSignal df symbol timeframe regime = .ok none := by
  unfold trendContinuationSignal
  rw [if_pos h]

theorem rangeReversion_wrong_regime (df : List Row) (symbol timeframe : String)
    (regime : MarketRegime) (h : regime ≠ .RANGE) :
    rangeReversionSignal df symbol timeframe regime = .ok none := by
  unfold rangeReversionSignal
  rw [if_pos h]

theorem inactive_regimes_return_none (df : List Row) (symbol timeframe : String)
    (regime : MarketRegime)
    (hr : regime = .TREND_DOWN ∨ regime = .CHOPPY ∨ regime = .BREAKOUT ∨
      regime = .UNKNOWN) :
    (∀ s ∈ strategyRegistry regime, s df symbol timeframe regime = .ok none) ∧
    bestOf (strategyRegistry regime) df symbol timeframe regime = none ∧
    (computeTrendDirection df = .ok regime →
      generateSignalReal df symbol timeframe = .ok none) := by
  have habstain : ∀ s ∈ strategyRegistry regime,
      s df symbol timeframe regime = .ok none := by
    intro s hs
    rcases hr with h | h | h | h <;> subst h <;>
      simp only [strategyRegistry, List.mem_cons, List.not_mem_nil, or_false] at hs
    · subst hs
      exact trendContinuation_wrong_regime df symbol timeframe _ (by decide)
    · subst hs
      exact rangeReversion_wrong_regime df symbol timeframe _ (by decide)
    · subst hs
      exact trendContinuation_wrong_regime df symbol timeframe _ (by decide)
    · rcases hs with hs | hs <;> subst hs
      · exact trendContinuation_wrong_regime df symbol timeframe _ (by decide)
      · exact rangeReversion_wrong_regime df symbol timeframe _ (by decide)
  have hbest : bestOf (strategyRegistry regime) df symbol timeframe regime = none :=
    foldl_abstain df symbol timeframe regime (strategyRegistry regime) none habstain
  refine ⟨habstain, hbest, ?_⟩
  intro hcd
  have hne : ¬ df.length = 0 := by
    intro h0
    have hdf : df = [] := List.length_eq_zero.mp h0
    subst hdf
    simp [computeTrendDirection, regimeRecent, listTail] at hcd
  unfold generateSignalReal
  rw [if_neg hne]
  simp only [hcd, hbest]

/-- Witness for C10: in the CHOPPY regime the registry's only strategy
(RangeReversion) abstains and the strategy loop selects nothing. -/
theorem inactive_regimes_return_none_witness :
    bestOf (strategyRegistry .CHOPPY) [noRsiRow] "BTC/USDT" "1h" .CHOPPY = none :=
  (inactive_regimes_return_none [noRsiRow] "BTC/USDT" "1h" .CHOPPY
    (Or.inr (Or.inl rfl))).2.1

end CryptoBot
